import Mathlib

/-!
# Sidecar synclet manager (`internal/engine/sidecar_synclet_manager.go`)

A shallow embedding of the per-pod client cache of the engine package:
`tunneledSyncletClient.Close`, `SidecarSyncletManager.ClientForPod`,
`SidecarSyncletManager.ForgetPod`, `SidecarSyncletManager.pollForNewClient`
and `newSidecarSyncletClient`.

Modelling conventions.

* A Go interface value that may be nil is an `Option`: `none` is nil.
* Effects are explicit: every function takes a `World` and returns the new one.
  The `World` counts clock readings, factory invocations and `Close` calls and
  keeps the ordered trace of observable events.
* The outside world is an `Env` of result streams: the i-th clock reading and
  the result of the i-th `Close` call.  The client factory is the `newClient`
  field of the manager, as in the source; its result is a function of the
  invocation number, the context and the pod.
* The mutex is held for the whole of `ClientForPod` and `ForgetPod`, so calls
  are executed one after another; the embedding is sequential and the lock has
  no state of its own.  Tracing spans and log lines have no effect on control
  flow and are left out.
* The retry loop of `pollForNewClient` need not terminate (a clock that stands
  still and a factory that always fails); it is defined with fuel and returns
  `none` when the fuel runs out.
-/

namespace Engine

/-! ## Data model -/

/-- Pod identifier `k8s.PodID`, a string type; the key of the cache. -/
abbrev PodID := String

/-- Duration and clock readings in nanoseconds (`time.Duration` is an int64). -/
abbrev Duration := Int

/-- The constant `time.Second`. -/
def Second : Duration := 1000000000

/-- The constant `time.Millisecond`. -/
def Millisecond : Duration := 1000000

/-- The constant `newClientTimeout = time.Second * 10`. -/
def newClientTimeout : Duration := Second * 10

/-- Arguments of a format string, kept unrendered. -/
inductive Arg where
  | pod (p : PodID)
  | duration (d : Duration)
  deriving DecidableEq, Repr

/-- Non-nil Go errors.  `base` is an error produced by a collaborator;
`wrap` and `wrapf` are the annotated errors built by `errors.Wrap` and
`errors.Wrapf` of github.com/pkg/errors, which keep the cause. -/
inductive Err where
  | base (msg : String)
  | wrap (cause : Err) (message : String)
  | wrapf (cause : Err) (format : String) (args : List Arg)
  deriving DecidableEq, Repr

/-- Library function `errors.Wrap` of github.com/pkg/errors: annotates `err`
with a message; as documented there, if `err` is nil, `Wrap` returns nil. -/
def Wrap (err : Option Err) (message : String) : Option Err :=
  match err with
  | none => none
  | some e => some (Err.wrap e message)

/-- Library function `errors.Wrapf` of github.com/pkg/errors: annotates `err`
with a format specifier; as documented there, if `err` is nil, `Wrapf` returns nil. -/
def Wrapf (err : Option Err) (format : String) (args : List Arg) : Option Err :=
  match err with
  | none => none
  | some e => some (Err.wrapf e format args)

/-- A non-nil `synclet.SyncletClient`, identified by a handle. -/
structure Client where
  id : Nat
  deriving DecidableEq, Repr

/-- The caller's `context.Context`: whether it is done (cancelled or past its
deadline) as a function of the number of clock readings made so far. -/
structure Context where
  done : Nat → Bool

/-- The type `newCliFn`.  The result of the factory may depend on anything, so
it is given per invocation number; the `kCli` argument is part of the stream. -/
abbrev newCliFn := Nat → Context → PodID → Option Client × Option Err

/-- Observable events, in the order in which they happen. -/
inductive Event where
  | newClient (podID : PodID)
  | store (podID : PodID) (client : Option Client)
  | delete (podID : PodID)
  | close (client : Client)
  | tunnelOpen (closer : Nat)
  | tunnelClose (closer : Nat)
  deriving DecidableEq, Repr

/-- The effect state: counters that index the result streams, and the trace. -/
structure World where
  ticks : Nat
  calls : Nat
  closes : Nat
  trace : List Event
  deriving DecidableEq, Repr

/-- Result streams of the outside world. -/
structure Env where
  now : Nat → Int
  close : Nat → Client → Option Err

/-- The struct `SidecarSyncletManager`: the map `clients` and the factory
`newClient`.  A map entry may hold a nil client, hence the inner `Option`. -/
structure SidecarSyncletManager where
  clients : PodID → Option (Option Client)
  newClient : newCliFn

/-- The struct `tunneledSyncletClient`: the embedded delegate client and the
tunnel teardown closure (identified by a number). -/
structure tunneledSyncletClient where
  SyncletClient : Client
  tunnelCloser : Nat
  deriving DecidableEq, Repr

/-- Result of a call that either returns or panics (a method call on a nil
interface value). -/
inductive Outcome (α : Type) where
  | ret (a : α)
  | panicked
  deriving DecidableEq, Repr

/-! ## Primitive effects -/

/-- Append an event to the trace. -/
def record (e : Event) (w : World) : World :=
  { w with trace := w.trace ++ [e] }

/-- The largest `time.Duration`. -/
def maxDuration : Duration := 2 ^ 63 - 1

/-- The smallest `time.Duration`. -/
def minDuration : Duration := -(2 ^ 63)

/-- The method `Time.Sub`: the difference of two readings, saturated to the
range of `time.Duration`. -/
def Sub (t u : Int) : Duration :=
  if t - u > maxDuration then maxDuration
  else if t - u < minDuration then minDuration
  else t - u

/-- The call `time.Now()`: the next reading of the clock. -/
def timeNow (env : Env) (w : World) : Int × World :=
  (env.now w.ticks, { w with ticks := w.ticks + 1 })

/-- The call `time.Since(start)`, that is `time.Now().Sub(start)`. -/
def timeSince (env : Env) (start : Int) (w : World) : Duration × World :=
  let (t, w1) := timeNow env w
  (Sub t start, w1)

/-- One invocation `ssm.newClient(ctx, kCli, podID)` of the factory. -/
def callNewClient (ssm : SidecarSyncletManager) (ctx : Context) (podID : PodID) (w : World) :
    (Option Client × Option Err) × World :=
  (ssm.newClient w.calls ctx podID,
    { w with calls := w.calls + 1, trace := w.trace ++ [Event.newClient podID] })

/-- One call `client.Close()` on a non-nil client. -/
def closeClient (env : Env) (client : Client) (w : World) : Option Err × World :=
  (env.close w.closes client,
    { w with closes := w.closes + 1, trace := w.trace ++ [Event.close client] })

/-- Invocation of a tunnel teardown closure. -/
def runTunnelCloser (closer : Nat) (w : World) : World :=
  record (Event.tunnelClose closer) w

/-- The map assignment `clients[podID] = client`. -/
def mapStore (clients : PodID → Option (Option Client)) (podID : PodID) (client : Option Client) :
    PodID → Option (Option Client) :=
  fun q => if q = podID then some client else clients q

/-- The builtin `delete(clients, podID)`. -/
def mapDelete (clients : PodID → Option (Option Client)) (podID : PodID) :
    PodID → Option (Option Client) :=
  fun q => if q = podID then none else clients q

/-! ## The tunneled client handle -/

/-- The method `tunneledSyncletClient.Close`. -/
def tunneledSyncletClient.Close (env : Env) (t : tunneledSyncletClient) (w : World) :
    Option Err × World :=
  let (err, w1) := closeClient env t.SyncletClient w
  match err with
  | some e => (some e, w1)
  | none => (none, runTunnelCloser t.tunnelCloser w1)

/-! ## The manager -/

/-- The format string of the error returned when the loop runs out of time. -/
def timedOutFormat : String :=
  "timed out trying to create new synclet client for pod %s (after %s) with err"

/-- The loop of `pollForNewClient`, after `start := time.Now()`.  The loop
variable `err` is the named result, nil before the first attempt. -/
def pollLoop (env : Env) (ssm : SidecarSyncletManager) (ctx : Context) (podID : PodID)
    (timeout : Duration) (start : Int) :
    Nat → Option Err → World → Option ((Option Client × Option Err) × World)
  | 0, _, _ => none
  | fuel + 1, err, w =>
    let (elapsed, w1) := timeSince env start w
    if elapsed < timeout then
      let (r, w2) := callNewClient ssm ctx podID w1
      match r.1 with
      | some cli => some ((some cli, none), w2)
      | none => pollLoop env ssm ctx podID timeout start fuel r.2 w2
    else
      some ((none, Wrapf err timedOutFormat [Arg.pod podID, Arg.duration timeout]), w1)

/-- The method `SidecarSyncletManager.pollForNewClient`. -/
def pollForNewClient (env : Env) (fuel : Nat) (ssm : SidecarSyncletManager) (ctx : Context)
    (podID : PodID) (timeout : Duration) (w : World) :
    Option ((Option Client × Option Err) × World) :=
  let (start, w1) := timeNow env w
  pollLoop env ssm ctx podID timeout start fuel none w1

/-- The method `SidecarSyncletManager.ClientForPod`. -/
def ClientForPod (env : Env) (fuel : Nat) (ssm : SidecarSyncletManager) (ctx : Context)
    (podID : PodID) (w : World) :
    Option ((Option Client × Option Err) × SidecarSyncletManager × World) :=
  match ssm.clients podID with
  | some client => some ((client, none), ssm, w)
  | none =>
    match pollForNewClient env fuel ssm ctx podID newClientTimeout w with
    | none => none
    | some ((client, err), w1) =>
      match err with
      | some e => some ((none, Wrap (some e) "error creating synclet client"), ssm, w1)
      | none =>
        some ((client, none),
          { ssm with clients := mapStore ssm.clients podID client },
          record (Event.store podID client) w1)

/-- The method `SidecarSyncletManager.ForgetPod`. -/
def ForgetPod (env : Env) (ssm : SidecarSyncletManager) (_ctx : Context) (podID : PodID)
    (w : World) : Outcome (Option Err) × SidecarSyncletManager × World :=
  match ssm.clients podID with
  | none => (Outcome.ret none, ssm, w)
  | some client =>
    let ssm1 := { ssm with clients := mapDelete ssm.clients podID }
    let w1 := record (Event.delete podID) w
    match client with
    | none => (Outcome.panicked, ssm1, w1)
    | some c =>
      let (err, w2) := closeClient env c w1
      (Outcome.ret err, ssm1, w2)

/-- Run `ClientForPod` on the same pod `n` times in a row, collecting the
results of the calls. -/
def ClientForPodN (env : Env) (fuel : Nat) (ctx : Context) (podID : PodID) :
    Nat → SidecarSyncletManager → World →
      Option (List (Option Client × Option Err) × SidecarSyncletManager × World)
  | 0, ssm, w => some ([], ssm, w)
  | n + 1, ssm, w =>
    match ClientForPod env fuel ssm ctx podID w with
    | none => none
    | some (r, ssm1, w1) =>
      match ClientForPodN env fuel ctx podID n ssm1 w1 with
      | none => none
      | some (rs, ssm2, w2) => some (r :: rs, ssm2, w2)

/-- Number of factory invocations recorded in a trace. -/
def countNewClient (trace : List Event) : Nat :=
  (trace.filter fun e => match e with
    | Event.newClient _ => true
    | _ => false).length

/-- Number of `Close` calls recorded in a trace. -/
def countClose (trace : List Event) : Nat :=
  (trace.filter fun e => match e with
    | Event.close _ => true
    | _ => false).length

/-- Number of invocations of the teardown closure `closer` recorded in a trace. -/
def countTunnelClose (closer : Nat) (trace : List Event) : Nat :=
  (trace.filter fun e => decide (e = Event.tunnelClose closer)).length

/-- Whether an error is the one built when the polling loop runs out of time. -/
def isTimedOut : Option Err → Bool
  | some (Err.wrapf _ format _) => decide (format = timedOutFormat)
  | _ => false

/-! ## The single-attempt factory -/

/-- Results of the collaborators consulted by one attempt of the factory:
`kCli.PodByID`, `k8s.WaitForContainerReady`, `kCli.ForwardPort` (local port and
teardown closure) and `grpc.DialContext` on the local port.  The code reads the
value of a result only when its error is nil, so each is a value or an error.
The constants `k8s.DefaultNamespace`, `sidecar.SyncletImageRef` and
`synclet.Port` are part of the streams. -/
structure Cluster where
  PodByID : PodID → Except Err Nat
  WaitForContainerReady : Nat → Option Err
  ForwardPort : PodID → Except Err (Nat × Nat)
  DialContext : Nat → Except Err Nat

/-- The call `kCli.ForwardPort`: on success a tunnel is open. -/
def forwardPort (k : Cluster) (podID : PodID) (w : World) : Except Err (Nat × Nat) × World :=
  match k.ForwardPort podID with
  | Except.error e => (Except.error e, w)
  | Except.ok (port, closer) => (Except.ok (port, closer), record (Event.tunnelOpen closer) w)

/-- The constructor `synclet.NewGRPCClient(conn)`. -/
def NewGRPCClient (conn : Nat) : Client := ⟨conn⟩

/-- The function `newSidecarSyncletClient`. -/
def newSidecarSyncletClient (k : Cluster) (_ctx : Context) (podID : PodID) (w : World) :
    (Option tunneledSyncletClient × Option Err) × World :=
  match k.PodByID podID with
  | Except.error e => ((none, Wrap (some e) "newSidecarSyncletClient"), w)
  | Except.ok pod =>
    match k.WaitForContainerReady pod with
    | some e => ((none, Wrap (some e) "newSidecarSyncletClient"), w)
    | none =>
      match forwardPort k podID w with
      | (Except.error e, w1) =>
        ((none, Wrapf (some e) "failed opening tunnel to synclet pod \x27%s\x27" [Arg.pod podID]), w1)
      | (Except.ok (tunneledPort, tunnelCloser), w1) =>
        match k.DialContext tunneledPort with
        | Except.error e => ((none, Wrap (some e) "connecting to synclet"), w1)
        | Except.ok conn => ((some ⟨NewGRPCClient conn, tunnelCloser⟩, none), w1)

/-- The constructor `NewSidecarSyncletManagerForTests`: an empty cache and a
factory that returns `fakeCli` with a nil error at every invocation. -/
def NewSidecarSyncletManagerForTests (fakeCli : Option Client) : SidecarSyncletManager :=
  { clients := fun _ => none
    newClient := fun _ _ _ => (fakeCli, none) }

/-! ## Vocabulary of the statements -/

/-- The elapsed time read by time check number `i` (counted from 0) of a
`pollForNewClient` that starts in world `w`: the call reads the clock once for
`start` and once per check. -/
def elapsedAt (env : Env) (w : World) (i : Nat) : Duration :=
  Sub (env.now (w.ticks + 1 + i)) (env.now w.ticks)

/-- The result of attempt number `i` (counted from 0) of a poll that starts in
world `w`. -/
def attemptAt (ssm : SidecarSyncletManager) (ctx : Context) (podID : PodID) (w : World)
    (i : Nat) : Option Client × Option Err :=
  ssm.newClient (w.calls + i) ctx podID

/-- The world after a poll loop that made `j` time checks followed by an attempt
each, and `extra` further time checks. -/
def afterAttempts (podID : PodID) (w : World) (j extra : Nat) : World :=
  { ticks := w.ticks + j + extra, calls := w.calls + j, closes := w.closes,
    trace := w.trace ++ List.replicate j (Event.newClient podID) }


/-- The error variable of the loop after `j` failed attempts. -/
def lastErr (ssm : SidecarSyncletManager) (ctx : Context) (podID : PodID) (w : World)
    (err : Option Err) : Nat → Option Err
  | 0 => err
  | j + 1 => (ssm.newClient (w.calls + j) ctx podID).2


/-- The world after a whole `pollForNewClient` that made `j` attempts and
`extra` time checks not followed by an attempt. -/
def afterPoll (podID : PodID) (w : World) (j extra : Nat) : World :=
  afterAttempts podID { w with ticks := w.ticks + 1 } j extra

/-! ## Concrete inputs -/

/-- The initial world: nothing has happened yet. -/
def w0 : World := ⟨0, 0, 0, []⟩

/-- A context that is never done. -/
def ctxLive : Context := ⟨fun _ => false⟩

/-- A context that is done from clock reading number `n` on. -/
def ctxDoneFrom (n : Nat) : Context := ⟨fun t => decide (n ≤ t)⟩

/-- A clock that advances by `step` between two readings, with clients whose
`Close` succeeds. -/
def envEvery (step : Duration) : Env := ⟨fun i => (i : Int) * step, fun _ _ => none⟩

/-- The same clock, with clients whose `Close` fails. -/
def envCloseFails (step : Duration) : Env :=
  ⟨fun i => (i : Int) * step, fun _ _ => some (Err.base "close failed")⟩

/-- A manager with an empty cache whose factory returns a new handle at every
invocation. -/
def ssmFresh : SidecarSyncletManager :=
  { clients := fun _ => none
    newClient := fun i _ _ => (some ⟨i⟩, none) }

/-- A manager whose cache holds client 5 for pod "pod-a" only. -/
def ssmCached : SidecarSyncletManager :=
  { clients := fun q => if q = "pod-a" then some (some ⟨5⟩) else none
    newClient := fun i _ _ => (some ⟨i⟩, none) }

/-- A manager with an empty cache whose factory fails twice, then yields client 9. -/
def ssmThird : SidecarSyncletManager :=
  { clients := fun _ => none
    newClient := fun i _ _ =>
      if i < 2 then (none, some (Err.base "container not ready")) else (some ⟨9⟩, none) }

/-- A manager with an empty cache whose factory, polled every 100ms, fails
while less than 200ms have elapsed and yields client 9 afterwards. -/
def ssmAfter200ms : SidecarSyncletManager :=
  { clients := fun _ => none
    newClient := fun i _ _ =>
      if elapsedAt (envEvery (100 * Millisecond)) w0 i < 200 * Millisecond
      then (none, some (Err.base "container not ready")) else (some ⟨9⟩, none) }

/-- A manager with an empty cache whose factory always fails: with the context
error once the context is done, with a readiness error before. -/
def ssmFailing : SidecarSyncletManager :=
  { clients := fun _ => none
    newClient := fun i ctx _ =>
      if ctx.done (i + 2) then (none, some (Err.base "context canceled"))
      else (none, some (Err.base "container not ready")) }

/-- A tunneled handle around client 3 with teardown closure 7. -/
def tunneled37 : tunneledSyncletClient := ⟨⟨3⟩, 7⟩

/-- A cluster where the pod is found and ready and the port forward succeeds
(local port 4000, teardown closure 7), but dialing fails. -/
def clusterDialFails : Cluster :=
  { PodByID := fun _ => Except.ok 1
    WaitForContainerReady := fun _ => none
    ForwardPort := fun _ => Except.ok (4000, 7)
    DialContext := fun _ => Except.error (Err.base "dial failed") }

/-! ## Theorems: the polling loop -/

theorem pollLoop_first_success (env : Env) (ssm : SidecarSyncletManager) (ctx : Context)
    (podID : PodID) (timeout : Duration) (start : Int) (cli : Client) :
    ∀ (j fuel : Nat) (err : Option Err) (w : World), j < fuel →
      (∀ i, i ≤ j → Sub (env.now (w.ticks + i)) start < timeout) →
      (∀ i, i < j → (ssm.newClient (w.calls + i) ctx podID).1 = none) →
      (ssm.newClient (w.calls + j) ctx podID).1 = some cli →
      pollLoop env ssm ctx podID timeout start fuel err w
        = some ((some cli, none), afterAttempts podID w (j + 1) 0) := by
  intro j
  induction j with
  | zero =>
    intro fuel err w hfuel hclock _ hcli
    obtain ⟨f, rfl⟩ : ∃ f, fuel = f + 1 := ⟨fuel - 1, by omega⟩
    have h0 : Sub (env.now w.ticks) start < timeout := by simpa using hclock 0 (le_refl 0)
    have hc : (ssm.newClient w.calls ctx podID).1 = some cli := by simpa using hcli
    simp [pollLoop, timeSince, timeNow, callNewClient, h0, hc, afterAttempts]
  | succ j ih =>
    intro fuel err w hfuel hclock hnone hcli
    obtain ⟨f, rfl⟩ : ∃ f, fuel = f + 1 := ⟨fuel - 1, by omega⟩
    have h0 : Sub (env.now w.ticks) start < timeout := by simpa using hclock 0 (Nat.zero_le _)
    have hn : (ssm.newClient w.calls ctx podID).1 = none := by
      simpa using hnone 0 (Nat.succ_pos j)
    have hrec := ih f (ssm.newClient w.calls ctx podID).2
      { w with ticks := w.ticks + 1, calls := w.calls + 1,
               trace := w.trace ++ [Event.newClient podID] }
      (by omega)
      (fun i hi => by
        have := hclock (i + 1) (by omega)
        simpa [Nat.add_assoc, Nat.add_comm 1 i] using this)
      (fun i hi => by
        have := hnone (i + 1) (by omega)
        simpa [Nat.add_assoc, Nat.add_comm 1 i] using this)
      (by simpa [Nat.add_assoc, Nat.add_comm 1 j] using hcli)
    simp only [pollLoop, timeSince, timeNow, callNewClient, h0, hn, if_true]
    rw [hrec]
    simp [afterAttempts, List.replicate_succ, Nat.add_assoc, Nat.add_comm 1]

theorem pollLoop_timed_out (env : Env) (ssm : SidecarSyncletManager) (ctx : Context)
    (podID : PodID) (timeout : Duration) (start : Int) :
    ∀ (j fuel : Nat) (err : Option Err) (w : World), j < fuel →
      (∀ i, i < j → Sub (env.now (w.ticks + i)) start < timeout) →
      ¬ Sub (env.now (w.ticks + j)) start < timeout →
      (∀ i, i < j → (ssm.newClient (w.calls + i) ctx podID).1 = none) →
      pollLoop env ssm ctx podID timeout start fuel err w
        = some ((none, Wrapf (lastErr ssm ctx podID w err j) timedOutFormat
                  [Arg.pod podID, Arg.duration timeout]),
                afterAttempts podID w j 1) := by
  intro j
  induction j with
  | zero =>
    intro fuel err w hfuel _ hstop _
    obtain ⟨f, rfl⟩ : ∃ f, fuel = f + 1 := ⟨fuel - 1, by omega⟩
    have h0 : ¬ Sub (env.now w.ticks) start < timeout := by simpa using hstop
    simp [pollLoop, timeSince, timeNow, h0, afterAttempts, lastErr]
  | succ j ih =>
    intro fuel err w hfuel hclock hstop hnone
    obtain ⟨f, rfl⟩ : ∃ f, fuel = f + 1 := ⟨fuel - 1, by omega⟩
    have h0 : Sub (env.now w.ticks) start < timeout := by simpa using hclock 0 (Nat.succ_pos j)
    have hn : (ssm.newClient w.calls ctx podID).1 = none := by
      simpa using hnone 0 (Nat.succ_pos j)
    have hrec := ih f (ssm.newClient w.calls ctx podID).2
      { w with ticks := w.ticks + 1, calls := w.calls + 1,
               trace := w.trace ++ [Event.newClient podID] }
      (by omega)
      (fun i hi => by
        have := hclock (i + 1) (by omega)
        simpa [Nat.add_assoc, Nat.add_comm 1 i] using this)
      (by simpa [Nat.add_assoc, Nat.add_comm 1 j] using hstop)
      (fun i hi => by
        have := hnone (i + 1) (by omega)
        simpa [Nat.add_assoc, Nat.add_comm 1 i] using this)
    simp only [pollLoop, timeSince, timeNow, callNewClient, h0, hn, if_true]
    rw [hrec]
    cases j with
    | zero => simp [afterAttempts, lastErr]
    | succ j =>
      simp [afterAttempts, lastErr, List.replicate_succ, Nat.add_assoc, Nat.add_comm 1]

theorem pollForNewClient_first_success (env : Env) (ssm : SidecarSyncletManager)
    (ctx : Context) (podID : PodID) (timeout : Duration) (w : World) (cli : Client)
    (j fuel : Nat) (hfuel : j < fuel)
    (hclock : ∀ i, i ≤ j → elapsedAt env w i < timeout)
    (hfail : ∀ i, i < j → (attemptAt ssm ctx podID w i).1 = none)
    (hcli : (attemptAt ssm ctx podID w j).1 = some cli) :
    pollForNewClient env fuel ssm ctx podID timeout w
      = some ((some cli, none), afterPoll podID w (j + 1) 0) := by
  have h := pollLoop_first_success env ssm ctx podID timeout (env.now w.ticks) cli j fuel none
    { w with ticks := w.ticks + 1 } hfuel
    (fun i hi => by simpa [elapsedAt] using hclock i hi)
    (fun i hi => by simpa [attemptAt] using hfail i hi)
    (by simpa [attemptAt] using hcli)
  simpa [pollForNewClient, timeNow, afterPoll] using h

theorem pollForNewClient_timed_out (env : Env) (ssm : SidecarSyncletManager)
    (ctx : Context) (podID : PodID) (timeout : Duration) (w : World)
    (j fuel : Nat) (hfuel : j < fuel)
    (hclock : ∀ i, i < j → elapsedAt env w i < timeout)
    (hstop : ¬ elapsedAt env w j < timeout)
    (hfail : ∀ i, i < j → (attemptAt ssm ctx podID w i).1 = none) :
    pollForNewClient env fuel ssm ctx podID timeout w
      = some ((none, Wrapf (lastErr ssm ctx podID w none j) timedOutFormat
                [Arg.pod podID, Arg.duration timeout]),
              afterPoll podID w j 1) := by
  have h := pollLoop_timed_out env ssm ctx podID timeout (env.now w.ticks) j fuel none
    { w with ticks := w.ticks + 1 } hfuel
    (fun i hi => by simpa [elapsedAt] using hclock i hi)
    (by simpa [elapsedAt] using hstop)
    (fun i hi => by simpa [attemptAt] using hfail i hi)
  have hl : lastErr ssm ctx podID { w with ticks := w.ticks + 1 } none j
      = lastErr ssm ctx podID w none j := by
    cases j <;> rfl
  rw [hl] at h
  simpa [pollForNewClient, timeNow, afterPoll] using h

theorem pollLoop_context_irrelevant (env : Env) (ssm : SidecarSyncletManager)
    (ctx1 ctx2 : Context) (podID : PodID) (timeout : Duration) (start : Int)
    (hsame : ∀ i, ssm.newClient i ctx1 podID = ssm.newClient i ctx2 podID) :
    ∀ (fuel : Nat) (err : Option Err) (w : World),
      pollLoop env ssm ctx1 podID timeout start fuel err w
        = pollLoop env ssm ctx2 podID timeout start fuel err w := by
  intro fuel
  induction fuel with
  | zero => intro err w; rfl
  | succ f ih =>
    intro err w
    simp only [pollLoop, timeSince, timeNow, callNewClient, hsame, ih]

/-! ## Theorems: the cache -/

theorem ClientForPodN_hit (env : Env) (fuel : Nat) (ctx : Context) (podID : PodID)
    (v : Option Client) :
    ∀ (n : Nat) (ssm : SidecarSyncletManager) (w : World), ssm.clients podID = some v →
      ClientForPodN env fuel ctx podID n ssm w = some (List.replicate n (v, none), ssm, w) := by
  intro n
  induction n with
  | zero => intro ssm w _; rfl
  | succ n ih =>
    intro ssm w h
    simp [ClientForPodN, ClientForPod, h, ih ssm w h, List.replicate_succ]

theorem ClientForPod_created (env : Env) (fuel : Nat) (ssm : SidecarSyncletManager)
    (ctx : Context) (podID : PodID) (w : World) (c : Client) (hfuel : 1 ≤ fuel)
    (hmiss : ssm.clients podID = none)
    (hclock : elapsedAt env w 0 < newClientTimeout)
    (hcli : (attemptAt ssm ctx podID w 0).1 = some c) :
    ClientForPod env fuel ssm ctx podID w
      = some ((some c, none),
          { ssm with clients := mapStore ssm.clients podID (some c) },
          { ticks := w.ticks + 2, calls := w.calls + 1, closes := w.closes,
            trace := w.trace ++ [Event.newClient podID, Event.store podID (some c)] }) := by
  have h := pollForNewClient_first_success env ssm ctx podID newClientTimeout w c 0 fuel
    (by omega) (fun i hi => by
      have : i = 0 := by omega
      subst this
      exact hclock) (fun i hi => absurd hi (Nat.not_lt_zero i)) hcli
  simp [ClientForPod, hmiss, h, afterPoll, afterAttempts, record, Nat.add_assoc]

/-- C1 (at most one connection per pod): starting from a cache with no entry for
the pod, if the first call enters the polling loop (its first elapsed-time check
is below `newClientTimeout`, so that the factory is invoked) and that first
invocation yields a client `c`, then `n ≥ 1` calls of `ClientForPod` in a row all
return `(c, nil)` and invoke the factory exactly once: the first call makes the
one invocation and stores `c`, the others make none. -/
theorem ClientForPod_at_most_one_connection (env : Env) (fuel : Nat)
    (ssm : SidecarSyncletManager) (ctx : Context) (podID : PodID) (w : World) (c : Client)
    (n : Nat) (hn : 1 ≤ n) (hfuel : 1 ≤ fuel)
    (hmiss : ssm.clients podID = none)
    (hclock : elapsedAt env w 0 < newClientTimeout)
    (hcli : (attemptAt ssm ctx podID w 0).1 = some c) :
    ∃ w1 : World,
      ClientForPodN env fuel ctx podID n ssm w
        = some (List.replicate n (some c, none),
            { ssm with clients := mapStore ssm.clients podID (some c) }, w1)
      ∧ w1.calls = w.calls + 1
      ∧ countNewClient w1.trace = countNewClient w.trace + 1
      ∧ w1.trace = w.trace ++ [Event.newClient podID, Event.store podID (some c)] := by
  obtain ⟨m, rfl⟩ : ∃ m, n = m + 1 := ⟨n - 1, by omega⟩
  refine ⟨{ ticks := w.ticks + 2, calls := w.calls + 1, closes := w.closes,
            trace := w.trace ++ [Event.newClient podID, Event.store podID (some c)] },
          ?_, rfl, ?_, rfl⟩
  · have h1 := ClientForPod_created env fuel ssm ctx podID w c hfuel hmiss hclock hcli
    have h2 := ClientForPodN_hit env fuel ctx podID (some c) m
      { ssm with clients := mapStore ssm.clients podID (some c) }
      { ticks := w.ticks + 2, calls := w.calls + 1, closes := w.closes,
        trace := w.trace ++ [Event.newClient podID, Event.store podID (some c)] }
      (by simp [mapStore])
    simp [ClientForPodN, h1, h2, List.replicate_succ]
  · simp [countNewClient, List.filter_append]

/-- Witness of C1: three calls in a row for pod "pod-a" on a fresh manager. -/
theorem ClientForPod_at_most_one_connection_witness :
    ∃ w1 : World,
      ClientForPodN (envEvery Millisecond) 1 ctxLive "pod-a" 3 ssmFresh w0
        = some (List.replicate 3 (some ⟨0⟩, none),
            { ssmFresh with clients := mapStore ssmFresh.clients "pod-a" (some ⟨0⟩) }, w1)
      ∧ w1.calls = w0.calls + 1
      ∧ countNewClient w1.trace = countNewClient w0.trace + 1
      ∧ w1.trace = w0.trace ++ [Event.newClient "pod-a", Event.store "pod-a" (some ⟨0⟩)] :=
  ClientForPod_at_most_one_connection (envEvery Millisecond) 1 ssmFresh ctxLive "pod-a" w0 ⟨0⟩ 3
    (by decide) (by decide) rfl (by decide) rfl

/-- C2 (cache hit): when the cache holds an entry `v` for the pod, `ClientForPod`
returns `(v, nil)`, leaves the manager (the whole mapping) unchanged and leaves
the world unchanged, so the factory is invoked zero times. -/
theorem ClientForPod_cache_hit (env : Env) (fuel : Nat) (ssm : SidecarSyncletManager)
    (ctx : Context) (podID : PodID) (w : World) (v : Option Client)
    (hhit : ssm.clients podID = some v) :
    ClientForPod env fuel ssm ctx podID w = some ((v, none), ssm, w) := by
  simp [ClientForPod, hhit]

/-- Witness of C2: the manager that holds client 5 for "pod-a". -/
theorem ClientForPod_cache_hit_witness :
    ssmCached.clients "pod-a" = some (some ⟨5⟩) ∧
    ClientForPod (envEvery Millisecond) 0 ssmCached ctxLive "pod-a" w0
      = some ((some ⟨5⟩, none), ssmCached, w0) :=
  ⟨rfl, ClientForPod_cache_hit (envEvery Millisecond) 0 ssmCached ctxLive "pod-a" w0 (some ⟨5⟩) rfl⟩

/-- C4 (eviction of a cached pod): when the cache holds client `c` for the pod,
`ForgetPod` deletes the entry, then calls `c.Close()` exactly once (the trace
grows by the deletion followed by the one close), and returns exactly what that
`Close` returned; afterwards the cache has no entry for the pod, whatever `Close`
returned, and the entries of all other pods are unchanged. -/
theorem ForgetPod_evicts_then_closes (env : Env) (ssm : SidecarSyncletManager)
    (ctx : Context) (podID : PodID) (w : World) (c : Client)
    (hhit : ssm.clients podID = some (some c)) :
    ForgetPod env ssm ctx podID w
      = (Outcome.ret (env.close w.closes c),
          { ssm with clients := mapDelete ssm.clients podID },
          { w with closes := w.closes + 1,
                   trace := w.trace ++ [Event.delete podID, Event.close c] })
    ∧ (ForgetPod env ssm ctx podID w).2.1.clients podID = none
    ∧ (∀ q, q ≠ podID → (ForgetPod env ssm ctx podID w).2.1.clients q = ssm.clients q)
    ∧ countClose (ForgetPod env ssm ctx podID w).2.2.trace = countClose w.trace + 1 := by
  have h : ForgetPod env ssm ctx podID w
      = (Outcome.ret (env.close w.closes c),
          { ssm with clients := mapDelete ssm.clients podID },
          { w with closes := w.closes + 1,
                   trace := w.trace ++ [Event.delete podID, Event.close c] }) := by
    simp [ForgetPod, hhit, closeClient, record]
  refine ⟨h, ?_, ?_, ?_⟩
  · simp [h, mapDelete]
  · intro q hq
    simp [h, mapDelete, hq]
  · simp [h, countClose, List.filter_append]

/-- Witness of C4: forgetting "pod-a" when closing its client fails. -/
theorem ForgetPod_evicts_then_closes_witness :
    ssmCached.clients "pod-a" = some (some ⟨5⟩) ∧
    (ForgetPod (envCloseFails Millisecond) ssmCached ctxLive "pod-a" w0
      = (Outcome.ret ((envCloseFails Millisecond).close w0.closes ⟨5⟩),
          { ssmCached with clients := mapDelete ssmCached.clients "pod-a" },
          { w0 with closes := w0.closes + 1,
                    trace := w0.trace ++ [Event.delete "pod-a", Event.close ⟨5⟩] })
    ∧ (ForgetPod (envCloseFails Millisecond) ssmCached ctxLive "pod-a" w0).2.1.clients "pod-a"
        = none
    ∧ (∀ q, q ≠ "pod-a" →
        (ForgetPod (envCloseFails Millisecond) ssmCached ctxLive "pod-a" w0).2.1.clients q
          = ssmCached.clients q)
    ∧ countClose (ForgetPod (envCloseFails Millisecond) ssmCached ctxLive "pod-a" w0).2.2.trace
        = countClose w0.trace + 1) :=
  ⟨rfl, ForgetPod_evicts_then_closes (envCloseFails Millisecond) ssmCached ctxLive "pod-a" w0 ⟨5⟩ rfl⟩

/-- C5 (idempotent forget): when the cache has no entry for the pod, `ForgetPod`
returns nil and leaves the manager and the world unchanged (no `Close` call);
and from every state, two `ForgetPod` calls in a row for the same pod make at
most one `Close` call in total and the second call returns nil. -/
theorem ForgetPod_idempotent (env : Env) (ssm : SidecarSyncletManager) (ctx : Context)
    (podID : PodID) (w : World) :
    (ssm.clients podID = none → ForgetPod env ssm ctx podID w = (Outcome.ret none, ssm, w))
    ∧ (ForgetPod env (ForgetPod env ssm ctx podID w).2.1 ctx podID
          (ForgetPod env ssm ctx podID w).2.2).1 = Outcome.ret none
    ∧ countClose (ForgetPod env (ForgetPod env ssm ctx podID w).2.1 ctx podID
          (ForgetPod env ssm ctx podID w).2.2).2.2.trace ≤ countClose w.trace + 1
    ∧ (ForgetPod env (ForgetPod env ssm ctx podID w).2.1 ctx podID
          (ForgetPod env ssm ctx podID w).2.2).2.2
        = (ForgetPod env ssm ctx podID w).2.2 := by
  have hnone : ∀ (s : SidecarSyncletManager) (v : World), s.clients podID = none →
      ForgetPod env s ctx podID v = (Outcome.ret none, s, v) := by
    intro s v h
    simp [ForgetPod, h]
  have hgone : (ForgetPod env ssm ctx podID w).2.1.clients podID = none := by
    cases h : ssm.clients podID with
    | none => simp [hnone ssm w h, h]
    | some v =>
      cases v with
      | none => simp [ForgetPod, h, mapDelete]
      | some c => simp [ForgetPod, h, mapDelete, closeClient]
  have hsecond := hnone _ (ForgetPod env ssm ctx podID w).2.2 hgone
  refine ⟨hnone ssm w, ?_, ?_, ?_⟩
  · rw [hsecond]
  · rw [hsecond]
    cases h : ssm.clients podID with
    | none => simp [hnone ssm w h]
    | some v =>
      cases v with
      | none => simp [ForgetPod, h, record, countClose, List.filter_append]
      | some c => simp [ForgetPod, h, record, closeClient, countClose, List.filter_append]
  · rw [hsecond]

/-- Witness of C5: forgetting "pod-b", which is not cached, and forgetting
"pod-b" twice. -/
theorem ForgetPod_idempotent_witness :
    ssmCached.clients "pod-b" = none ∧
    ForgetPod (envEvery Millisecond) ssmCached ctxLive "pod-b" w0 = (Outcome.ret none, ssmCached, w0) :=
  ⟨by decide,
   (ForgetPod_idempotent (envEvery Millisecond) ssmCached ctxLive "pod-b" w0).1 (by decide)⟩

/-- C6 (cache, evict, recreate): from a cache with no entry for pod `A`, with a
factory whose first two invocations yield `H1` and `H2` (each poll entering its
loop), the sequence `ClientForPod(A)`; `ForgetPod(A)`; `ClientForPod(A)` returns
`H1`, then whatever closing `H1` returned (nil or an error), then `H2`.  The
cache has no entry for `A` after the forget, so the third call is a miss: the
trace shows one close of `H1` and a second factory invocation after it, and `H2`
is the result of that second invocation. -/
theorem cache_evict_recreate (env : Env) (fuel : Nat) (ssm : SidecarSyncletManager)
    (ctx : Context) (A : PodID) (w : World) (H1 H2 : Client) (hfuel : 1 ≤ fuel)
    (hmiss : ssm.clients A = none)
    (hclock1 : elapsedAt env w 0 < newClientTimeout)
    (hcli1 : (ssm.newClient w.calls ctx A).1 = some H1)
    (hclock2 : elapsedAt env { w with ticks := w.ticks + 2 } 0 < newClientTimeout)
    (hcli2 : (ssm.newClient (w.calls + 1) ctx A).1 = some H2) :
    ∃ (ssm1 : SidecarSyncletManager) (w1 : World) (ssm2 : SidecarSyncletManager) (w2 : World)
      (ssm3 : SidecarSyncletManager) (w3 : World),
      ClientForPod env fuel ssm ctx A w = some ((some H1, none), ssm1, w1)
      ∧ ForgetPod env ssm1 ctx A w1 = (Outcome.ret (env.close w.closes H1), ssm2, w2)
      ∧ ssm2.clients A = none
      ∧ ClientForPod env fuel ssm2 ctx A w2 = some ((some H2, none), ssm3, w3)
      ∧ w3.trace = w.trace ++ [Event.newClient A, Event.store A (some H1), Event.delete A,
          Event.close H1, Event.newClient A, Event.store A (some H2)]
      ∧ w3.calls = w.calls + 2
      ∧ countClose w3.trace = countClose w.trace + 1
      ∧ ssm3.clients A = some (some H2) := by
  have h1 := ClientForPod_created env fuel ssm ctx A w H1 hfuel hmiss hclock1
    (by simpa [attemptAt] using hcli1)
  have h2 : ForgetPod env { ssm with clients := mapStore ssm.clients A (some H1) } ctx A
      { ticks := w.ticks + 2, calls := w.calls + 1, closes := w.closes,
        trace := w.trace ++ [Event.newClient A, Event.store A (some H1)] }
      = (Outcome.ret (env.close w.closes H1),
          { ssm with clients := mapDelete (mapStore ssm.clients A (some H1)) A },
          { ticks := w.ticks + 2, calls := w.calls + 1, closes := w.closes + 1,
            trace := w.trace ++ [Event.newClient A, Event.store A (some H1), Event.delete A,
              Event.close H1] }) := by
    simp [ForgetPod, mapStore, closeClient, record]
  have h3 := ClientForPod_created env fuel
    { ssm with clients := mapDelete (mapStore ssm.clients A (some H1)) A } ctx A
    { ticks := w.ticks + 2, calls := w.calls + 1, closes := w.closes + 1,
      trace := w.trace ++ [Event.newClient A, Event.store A (some H1), Event.delete A,
        Event.close H1] } H2 hfuel
    (by simp [mapDelete])
    (by simpa [elapsedAt] using hclock2)
    (by simpa [attemptAt] using hcli2)
  refine ⟨_, _, _, _, _, _, h1, h2, ?_, h3, ?_, ?_, ?_, ?_⟩
  · simp [mapDelete]
  · simp
  · simp
  · simp [countClose, List.filter_append]
  · simp [mapStore]

/-- Witness of C6: pod "pod-a" on a fresh manager whose clients fail to close. -/
theorem cache_evict_recreate_witness :
    ∃ (ssm1 : SidecarSyncletManager) (w1 : World) (ssm2 : SidecarSyncletManager) (w2 : World)
      (ssm3 : SidecarSyncletManager) (w3 : World),
      ClientForPod (envCloseFails Millisecond) 1 ssmFresh ctxLive "pod-a" w0
        = some ((some ⟨0⟩, none), ssm1, w1)
      ∧ ForgetPod (envCloseFails Millisecond) ssm1 ctxLive "pod-a" w1
        = (Outcome.ret ((envCloseFails Millisecond).close w0.closes ⟨0⟩), ssm2, w2)
      ∧ ssm2.clients "pod-a" = none
      ∧ ClientForPod (envCloseFails Millisecond) 1 ssm2 ctxLive "pod-a" w2
        = some ((some ⟨1⟩, none), ssm3, w3)
      ∧ w3.trace = w0.trace ++ [Event.newClient "pod-a", Event.store "pod-a" (some ⟨0⟩),
          Event.delete "pod-a", Event.close ⟨0⟩, Event.newClient "pod-a",
          Event.store "pod-a" (some ⟨1⟩)]
      ∧ w3.calls = w0.calls + 2
      ∧ countClose w3.trace = countClose w0.trace + 1
      ∧ ssm3.clients "pod-a" = some (some ⟨1⟩) :=
  cache_evict_recreate (envCloseFails Millisecond) 1 ssmFresh ctxLive "pod-a" w0 ⟨0⟩ ⟨1⟩
    (by decide) rfl (by decide) rfl (by decide) rfl

/-! ## Theorems: the tunneled client handle -/

/-- C7 (close ordering): `Close` of the tunneled handle first calls the delegate's
`Close`.  If that returns an error `e`, `Close` returns `e` and the teardown
closure is not invoked (the trace grows by the delegate's close only).  If it
returns nil, the teardown closure is invoked exactly once, after the delegate's
close, and `Close` returns nil. -/
theorem tunneledSyncletClient_Close_ordering (env : Env) (t : tunneledSyncletClient)
    (w : World) :
    (∀ e, env.close w.closes t.SyncletClient = some e →
        t.Close env w
          = (some e, { w with closes := w.closes + 1,
                              trace := w.trace ++ [Event.close t.SyncletClient] })
        ∧ countTunnelClose t.tunnelCloser (t.Close env w).2.trace
            = countTunnelClose t.tunnelCloser w.trace)
    ∧ (env.close w.closes t.SyncletClient = none →
        t.Close env w
          = (none, { w with closes := w.closes + 1,
                            trace := w.trace ++ [Event.close t.SyncletClient,
                              Event.tunnelClose t.tunnelCloser] })
        ∧ countTunnelClose t.tunnelCloser (t.Close env w).2.trace
            = countTunnelClose t.tunnelCloser w.trace + 1) := by
  constructor
  · intro e he
    have h : t.Close env w
        = (some e, { w with closes := w.closes + 1,
                            trace := w.trace ++ [Event.close t.SyncletClient] }) := by
      simp [tunneledSyncletClient.Close, closeClient, he]
    refine ⟨h, ?_⟩
    simp [h, countTunnelClose, List.filter_append]
  · intro he
    have h : t.Close env w
        = (none, { w with closes := w.closes + 1,
                          trace := w.trace ++ [Event.close t.SyncletClient,
                            Event.tunnelClose t.tunnelCloser] }) := by
      simp [tunneledSyncletClient.Close, closeClient, he, runTunnelCloser, record]
    refine ⟨h, ?_⟩
    simp [h, countTunnelClose, List.filter_append]

/-- Witness of C7: the handle around client 3 with teardown closure 7, once with a
delegate whose close fails and once with one whose close succeeds. -/
theorem tunneledSyncletClient_Close_ordering_witness :
    (tunneled37.Close (envCloseFails Millisecond) w0
        = (some (Err.base "close failed"), ⟨0, 0, 1, [Event.close ⟨3⟩]⟩)
      ∧ countTunnelClose 7 (tunneled37.Close (envCloseFails Millisecond) w0).2.trace
          = countTunnelClose 7 w0.trace)
    ∧ (tunneled37.Close (envEvery Millisecond) w0
        = (none, ⟨0, 0, 1, [Event.close ⟨3⟩, Event.tunnelClose 7]⟩)
      ∧ countTunnelClose 7 (tunneled37.Close (envEvery Millisecond) w0).2.trace
          = countTunnelClose 7 w0.trace + 1) :=
  ⟨(tunneledSyncletClient_Close_ordering (envCloseFails Millisecond) tunneled37 w0).1
      (Err.base "close failed") rfl,
   (tunneledSyncletClient_Close_ordering (envEvery Millisecond) tunneled37 w0).2 rfl⟩

/-! ## Theorems: first success, time-out and cancellation in the polling loop -/

theorem countNewClient_append_replicate (podID : PodID) (trace : List Event) (k : Nat) :
    countNewClient (trace ++ List.replicate k (Event.newClient podID))
      = countNewClient trace + k := by
  induction k with
  | zero => simp
  | succ k ih =>
    have hsplit : trace ++ List.replicate (k + 1) (Event.newClient podID)
        = (trace ++ List.replicate k (Event.newClient podID)) ++ [Event.newClient podID] := by
      rw [List.replicate_succ', List.append_assoc]
    rw [hsplit]
    have hstep : ∀ l : List Event,
        countNewClient (l ++ [Event.newClient podID]) = countNewClient l + 1 := by
      intro l
      simp [countNewClient, List.filter_append]
    rw [hstep, ih]
    omega

theorem pollForNewClient_first_of_k (env : Env) (ssm : SidecarSyncletManager)
    (ctx : Context) (podID : PodID) (timeout : Duration) (w : World) (c : Client)
    (k fuel : Nat) (hk : 1 ≤ k) (hfuel : k ≤ fuel)
    (hclock : ∀ i, i < k → elapsedAt env w i < timeout)
    (hfail : ∀ i, i + 1 < k → (attemptAt ssm ctx podID w i).1 = none)
    (hcli : (attemptAt ssm ctx podID w (k - 1)).1 = some c) :
    pollForNewClient env fuel ssm ctx podID timeout w
        = some ((some c, none), afterPoll podID w k 0)
      ∧ (afterPoll podID w k 0).calls = w.calls + k
      ∧ countNewClient (afterPoll podID w k 0).trace = countNewClient w.trace + k := by
  obtain ⟨j, rfl⟩ : ∃ j, k = j + 1 := ⟨k - 1, by omega⟩
  refine ⟨?_, rfl, ?_⟩
  · exact pollForNewClient_first_success env ssm ctx podID timeout w c j fuel (by omega)
      (fun i hi => hclock i (by omega)) (fun i hi => hfail i (by omega))
      (by simpa using hcli)
  · simp only [afterPoll, afterAttempts]
    exact countNewClient_append_replicate podID w.trace (j + 1)

/-- C9 (first success wins).  First part: if attempt `k ≥ 1` is the first one that
yields a client and the elapsed time read before each of the attempts 1 to `k`
is below the timeout, then with fuel at least `k` the loop returns that client
with a nil error after exactly `k` factory invocations.  Second part, the
scenario: under a timeout of one second, with a factory that fails while less
than 200ms have elapsed and succeeds afterwards, when the first check reads less
than 200ms and some check reads at least 200ms with no check up to it reaching
one second, the loop returns the client with a nil error after `k ≥ 2`
invocations. -/
theorem pollForNewClient_first_success_wins :
    (∀ (env : Env) (ssm : SidecarSyncletManager) (ctx : Context) (podID : PodID)
        (timeout : Duration) (w : World) (c : Client) (k fuel : Nat),
        1 ≤ k → k ≤ fuel →
        (∀ i, i < k → elapsedAt env w i < timeout) →
        (∀ i, i + 1 < k → (attemptAt ssm ctx podID w i).1 = none) →
        (attemptAt ssm ctx podID w (k - 1)).1 = some c →
        pollForNewClient env fuel ssm ctx podID timeout w
            = some ((some c, none), afterPoll podID w k 0)
          ∧ (afterPoll podID w k 0).calls = w.calls + k
          ∧ countNewClient (afterPoll podID w k 0).trace = countNewClient w.trace + k)
    ∧ (∀ (env : Env) (ssm : SidecarSyncletManager) (ctx : Context) (podID : PodID)
        (w : World) (c : Client),
        (∀ i, (attemptAt ssm ctx podID w i).1
            = if elapsedAt env w i < 200 * Millisecond then none else some c) →
        elapsedAt env w 0 < 200 * Millisecond →
        (∃ j, 200 * Millisecond ≤ elapsedAt env w j ∧ ∀ i, i ≤ j → elapsedAt env w i < Second) →
        ∃ k, 2 ≤ k ∧ ∀ fuel, k ≤ fuel →
          pollForNewClient env fuel ssm ctx podID Second w
              = some ((some c, none), afterPoll podID w k 0)
            ∧ (afterPoll podID w k 0).calls = w.calls + k
            ∧ countNewClient (afterPoll podID w k 0).trace = countNewClient w.trace + k) := by
  constructor
  · intro env ssm ctx podID timeout w c k fuel hk hfuel hclock hfail hcli
    exact pollForNewClient_first_of_k env ssm ctx podID timeout w c k fuel hk hfuel hclock
      hfail hcli
  · intro env ssm ctx podID w c hfac hfirst hlater
    obtain ⟨j, hj, hbelow⟩ := hlater
    have hex : ∃ m, 200 * Millisecond ≤ elapsedAt env w m := ⟨j, hj⟩
    have hmin : ∀ i, i < Nat.find hex → elapsedAt env w i < 200 * Millisecond := by
      intro i hi
      exact lt_of_not_ge (Nat.find_min hex hi)
    have hspec : 200 * Millisecond ≤ elapsedAt env w (Nat.find hex) := Nat.find_spec hex
    have hle : Nat.find hex ≤ j := Nat.find_min' hex hj
    have hpos : 1 ≤ Nat.find hex := by
      rcases Nat.eq_zero_or_pos (Nat.find hex) with h0 | h0
      · rw [h0] at hspec
        exact absurd hfirst (not_lt_of_ge hspec)
      · exact h0
    refine ⟨Nat.find hex + 1, by omega, ?_⟩
    intro fuel hfuel
    apply pollForNewClient_first_of_k env ssm ctx podID Second w c (Nat.find hex + 1) fuel
      (by omega) hfuel
    · intro i hi
      exact hbelow i (by omega)
    · intro i hi
      rw [hfac i, if_pos (hmin i (by omega))]
    · rw [hfac, if_neg (not_lt_of_ge (by simpa using hspec))]

/-- Witness of C9: a factory that yields a client at its third attempt under
checks every millisecond, and the scenario polled every 100ms, where the
second attempt falls at 200ms. -/
theorem pollForNewClient_first_success_wins_witness :
    (pollForNewClient (envEvery Millisecond) 3 ssmThird ctxLive "pod-a" newClientTimeout w0
        = some ((some ⟨9⟩, none), afterPoll "pod-a" w0 3 0)
      ∧ (afterPoll "pod-a" w0 3 0).calls = w0.calls + 3
      ∧ countNewClient (afterPoll "pod-a" w0 3 0).trace = countNewClient w0.trace + 3)
    ∧ (∃ k, 2 ≤ k ∧ ∀ fuel, k ≤ fuel →
        pollForNewClient (envEvery (100 * Millisecond)) fuel ssmAfter200ms ctxLive "pod-a"
            Second w0
            = some ((some ⟨9⟩, none), afterPoll "pod-a" w0 k 0)
          ∧ (afterPoll "pod-a" w0 k 0).calls = w0.calls + k
          ∧ countNewClient (afterPoll "pod-a" w0 k 0).trace = countNewClient w0.trace + k) :=
  ⟨pollForNewClient_first_success_wins.1 (envEvery Millisecond) ssmThird ctxLive "pod-a"
      newClientTimeout w0 ⟨9⟩ 3 3 (by decide) (by decide) (by decide)
      (fun i hi => by
        have h2 : i < 2 := by omega
        interval_cases i <;> decide)
      (by decide),
   pollForNewClient_first_success_wins.2 (envEvery (100 * Millisecond)) ssmAfter200ms ctxLive
      "pod-a" w0 ⟨9⟩
      (fun i => by
        show (ssmAfter200ms.newClient (w0.calls + i) ctxLive "pod-a").1 = _
        have h0 : w0.calls + i = i := by simp [w0]
        rw [h0]
        simp only [ssmAfter200ms]
        split <;> rfl)
      (by decide)
      ⟨1, by decide, by decide⟩⟩

/-- C10, counterexample: the clock advances two seconds per reading, the factory
always fails and the context is done from the third clock reading on, that is
after the first attempt.  The loop still makes all four attempts that fit below
`newClientTimeout`, three of them after the cancellation, and returns the
timed-out error (wrapping the last failure of the factory), not a cancellation
error of its own. -/
theorem pollForNewClient_cancelled_runs_to_timeout :
    pollForNewClient (envEvery (2 * Second)) 5 ssmFailing (ctxDoneFrom 3) "pod-a"
        newClientTimeout w0
      = some ((none, some (Err.wrapf (Err.base "context canceled") timedOutFormat
                [Arg.pod "pod-a", Arg.duration newClientTimeout])),
              ⟨6, 4, 0, [Event.newClient "pod-a", Event.newClient "pod-a",
                Event.newClient "pod-a", Event.newClient "pod-a"]⟩)
    ∧ isTimedOut (some (Err.wrapf (Err.base "context canceled") timedOutFormat
        [Arg.pod "pod-a", Arg.duration newClientTimeout])) = true
    ∧ (ctxDoneFrom 3).done 3 = true
    ∧ elapsedAt (envEvery (2 * Second)) w0 3 < newClientTimeout := by
  decide

/-- C10, amended: the polling loop does not inspect the context.  For every
context, done or not, and every factory that always fails, if the first `k ≥ 1`
elapsed-time checks are below the timeout and the next one is not, then with
fuel above `k` the loop makes exactly `k` factory invocations and returns no
client with the timed-out error wrapping the most recent failure of the
factory; and the result of the loop is the same for any other context on which
the factory returns the same results. -/
theorem pollForNewClient_context_not_observed (env : Env) (ssm : SidecarSyncletManager)
    (ctx : Context) (podID : PodID) (timeout : Duration) (w : World) (k fuel : Nat)
    (hk : 1 ≤ k) (hfuel : k < fuel)
    (hfail : ∀ i, ∃ e, attemptAt ssm ctx podID w i = (none, some e))
    (hclock : ∀ i, i < k → elapsedAt env w i < timeout)
    (hstop : ¬ elapsedAt env w k < timeout) :
    (∃ e, (attemptAt ssm ctx podID w (k - 1)).2 = some e
      ∧ pollForNewClient env fuel ssm ctx podID timeout w
          = some ((none, some (Err.wrapf e timedOutFormat
                    [Arg.pod podID, Arg.duration timeout])),
                  afterPoll podID w k 1)
      ∧ isTimedOut (some (Err.wrapf e timedOutFormat
          [Arg.pod podID, Arg.duration timeout])) = true)
    ∧ (afterPoll podID w k 1).calls = w.calls + k
    ∧ countNewClient (afterPoll podID w k 1).trace = countNewClient w.trace + k
    ∧ (∀ (ctx2 : Context) (fuel2 : Nat),
        (∀ i, ssm.newClient i ctx podID = ssm.newClient i ctx2 podID) →
        pollForNewClient env fuel2 ssm ctx2 podID timeout w
          = pollForNewClient env fuel2 ssm ctx podID timeout w) := by
  obtain ⟨j, rfl⟩ : ∃ j, k = j + 1 := ⟨k - 1, by omega⟩
  obtain ⟨e, he⟩ := hfail j
  have hpoll := pollForNewClient_timed_out env ssm ctx podID timeout w (j + 1) fuel hfuel
    hclock hstop (fun i _ => by
      obtain ⟨e2, he2⟩ := hfail i
      rw [he2])
  have hlast : lastErr ssm ctx podID w none (j + 1) = some e := by
    have : (attemptAt ssm ctx podID w j).2 = some e := by rw [he]
    simpa [lastErr, attemptAt] using this
  refine ⟨⟨e, ?_, ?_, ?_⟩, rfl, ?_, ?_⟩
  · simp [he]
  · rw [hpoll, hlast]
    rfl
  · simp [isTimedOut]
  · simp only [afterPoll, afterAttempts]
    exact countNewClient_append_replicate podID w.trace (j + 1)
  · intro ctx2 fuel2 hsame
    simp only [pollForNewClient, timeNow]
    exact (pollLoop_context_irrelevant env ssm ctx ctx2 podID timeout (env.now w.ticks) hsame
      fuel2 none _).symm

/-- Witness of the amended C10, at the input of the counterexample. -/
theorem pollForNewClient_context_not_observed_witness :
    (∃ e, (attemptAt ssmFailing (ctxDoneFrom 3) "pod-a" w0 (4 - 1)).2 = some e
      ∧ pollForNewClient (envEvery (2 * Second)) 5 ssmFailing (ctxDoneFrom 3) "pod-a"
            newClientTimeout w0
          = some ((none, some (Err.wrapf e timedOutFormat
                    [Arg.pod "pod-a", Arg.duration newClientTimeout])),
                  afterPoll "pod-a" w0 4 1)
      ∧ isTimedOut (some (Err.wrapf e timedOutFormat
          [Arg.pod "pod-a", Arg.duration newClientTimeout])) = true)
    ∧ (afterPoll "pod-a" w0 4 1).calls = w0.calls + 4
    ∧ countNewClient (afterPoll "pod-a" w0 4 1).trace = countNewClient w0.trace + 4
    ∧ (∀ (ctx2 : Context) (fuel2 : Nat),
        (∀ i, ssmFailing.newClient i (ctxDoneFrom 3) "pod-a"
            = ssmFailing.newClient i ctx2 "pod-a") →
        pollForNewClient (envEvery (2 * Second)) fuel2 ssmFailing ctx2 "pod-a"
            newClientTimeout w0
          = pollForNewClient (envEvery (2 * Second)) fuel2 ssmFailing (ctxDoneFrom 3) "pod-a"
              newClientTimeout w0) :=
  pollForNewClient_context_not_observed (envEvery (2 * Second)) ssmFailing (ctxDoneFrom 3)
    "pod-a" newClientTimeout w0 4 5 (by decide) (by decide)
    (fun i => by
      show ∃ e, ssmFailing.newClient (w0.calls + i) (ctxDoneFrom 3) "pod-a" = (none, some e)
      simp only [ssmFailing]
      split
      · exact ⟨_, rfl⟩
      · exact ⟨_, rfl⟩)
    (fun i hi => by interval_cases i <;> decide)
    (by decide)

/-! ## Theorems: failed creation -/

/-- Failed creation when the loop ends with an error in hand: if the loop runs
out of time after `j ≥ 1` failed attempts the last of which returned the error
`e`, `ClientForPod` returns no client with the error wrapping `e` twice, and the
manager is unchanged. -/
theorem ClientForPod_timed_out_with_error (env : Env) (fuel : Nat)
    (ssm : SidecarSyncletManager) (ctx : Context) (podID : PodID) (w : World)
    (j : Nat) (e : Err) (hj : 1 ≤ j) (hfuel : j < fuel)
    (hmiss : ssm.clients podID = none)
    (hclock : ∀ i, i < j → elapsedAt env w i < newClientTimeout)
    (hstop : ¬ elapsedAt env w j < newClientTimeout)
    (hfail : ∀ i, i < j → (attemptAt ssm ctx podID w i).1 = none)
    (hlast : (attemptAt ssm ctx podID w (j - 1)).2 = some e) :
    ClientForPod env fuel ssm ctx podID w
      = some ((none, some (Err.wrap (Err.wrapf e timedOutFormat
                  [Arg.pod podID, Arg.duration newClientTimeout])
                "error creating synclet client")),
              ssm, afterPoll podID w j 1) := by
  obtain ⟨m, rfl⟩ : ∃ m, j = m + 1 := ⟨j - 1, by omega⟩
  have hpoll := pollForNewClient_timed_out env ssm ctx podID newClientTimeout w (m + 1) fuel
    hfuel hclock hstop hfail
  have hl : lastErr ssm ctx podID w none (m + 1) = some e := by
    simpa [lastErr, attemptAt] using hlast
  rw [hl] at hpoll
  simp [ClientForPod, hmiss, hpoll, Wrapf, Wrap]

/-- C3, the failing inputs evaluated.  (a) The manager built by
`NewSidecarSyncletManagerForTests` with a nil client, whose factory returns
`(nil, nil)`: the loop runs out of time with a nil error in hand, `Wrapf` of nil is
nil, and `ClientForPod` returns `(nil, nil)` and stores a nil client for the pod.
(b) A factory that would fail with an error, under a clock whose first reading
inside the loop is already ten seconds after `start`: the factory is never
invoked and the result is the same.  (c) After (a), `ForgetPod` on the pod finds
the nil entry and panics when it calls `Close` on it. -/
theorem ClientForPod_timed_out_without_error :
    ((ClientForPod (envEvery (5 * Second)) 3 (NewSidecarSyncletManagerForTests none) ctxLive
        "pod-a" w0).map fun r => (r.1, r.2.1.clients "pod-a", r.2.2))
      = some ((none, none), some none,
          ⟨3, 1, 0, [Event.newClient "pod-a", Event.store "pod-a" none]⟩)
    ∧ ((ClientForPod (envEvery (10 * Second)) 3 ssmFailing ctxLive
        "pod-a" w0).map fun r => (r.1, r.2.1.clients "pod-a", r.2.2))
      = some ((none, none), some none, ⟨2, 0, 0, [Event.store "pod-a" none]⟩)
    ∧ ((ClientForPod (envEvery (5 * Second)) 3 (NewSidecarSyncletManagerForTests none) ctxLive
        "pod-a" w0).map fun r =>
          (ForgetPod (envEvery (5 * Second)) r.2.1 ctxLive "pod-a" r.2.2).1)
      = some Outcome.panicked := by
  decide

/-! ## Theorems: the single-attempt factory -/

/-- The factory on a dial failure after a successful port forward: it returns no
client and the wrapped dial error, and it records the opening of the tunnel but
no invocation of the teardown closure. -/
theorem newSidecarSyncletClient_dial_failure (k : Cluster) (ctx : Context) (podID : PodID)
    (w : World) (pod port closer : Nat) (e : Err)
    (hpod : k.PodByID podID = Except.ok pod)
    (hready : k.WaitForContainerReady pod = none)
    (hforward : k.ForwardPort podID = Except.ok (port, closer))
    (hdial : k.DialContext port = Except.error e) :
    newSidecarSyncletClient k ctx podID w
      = ((none, some (Err.wrap e "connecting to synclet")),
          { w with trace := w.trace ++ [Event.tunnelOpen closer] })
    ∧ countTunnelClose closer (newSidecarSyncletClient k ctx podID w).2.trace
        = countTunnelClose closer w.trace := by
  have h : newSidecarSyncletClient k ctx podID w
      = ((none, some (Err.wrap e "connecting to synclet")),
          { w with trace := w.trace ++ [Event.tunnelOpen closer] }) := by
    simp [newSidecarSyncletClient, forwardPort, hpod, hready, hforward, hdial, Wrap, record]
  refine ⟨h, ?_⟩
  simp [h, countTunnelClose, List.filter_append]

/-- C8, the failing input evaluated: the pod is found and ready, the port forward
succeeds with teardown closure 7, and the dial fails.  The factory returns the
wrapped dial error and not a tunnel error, but the teardown closure is invoked
zero times: the trace holds the opening of the tunnel only. -/
theorem newSidecarSyncletClient_dial_failure_leaks_tunnel :
    newSidecarSyncletClient clusterDialFails ctxLive "pod-a" w0
      = ((none, some (Err.wrap (Err.base "dial failed") "connecting to synclet")),
          ⟨0, 0, 0, [Event.tunnelOpen 7]⟩)
    ∧ countTunnelClose 7 (newSidecarSyncletClient clusterDialFails ctxLive "pod-a" w0).2.trace
        = 0 := by
  decide

end Engine
